import Mathlib

/-!
Verification of the NethServer/my alerting CLI scripts.

This file gives a shallow embedding of the two Python scripts
`scripts/alerting_config.py` (the Logto OIDC + PKCE login flow) and
`scripts/alert.py` (Alertmanager alert push / resolve payload construction),
and proves the specification's claims about them.

Conventions of the embedding:
* HTTP traffic is modelled by an environment `env : Nat -> HttpResponse`
  giving the response to the i-th request issued by the flow; the flow
  returns the list of requests it issued together with its outcome.
* Machine-level library primitives used by the scripts (SHA-256,
  base64url, `secrets.token_urlsafe`, `urllib.parse.parse_qs`,
  `strftime`) are implemented concretely over `Nat` / `List Nat`.
* Randomness (`secrets.token_urlsafe(n)`) is modelled by passing the `n`
  random bytes as an explicit parameter.
-/

namespace My

/-! ## Generic string helpers -/

/-- Python `s.rstrip('/')`: drop all trailing slash characters. -/
def rstripSlash (s : String) : String :=
  String.mk ((s.data.reverse.dropWhile (fun c => c = '/')).reverse)

/-- Bool-valued check that `pat` is a prefix of `l` (list of chars). -/
def subListAt : List Char → List Char → Bool
  | [], _ => true
  | _ :: _, [] => false
  | a :: ps, b :: ls => a == b && subListAt ps ls

/-- Bool-valued check that `pat` occurs as a contiguous sublist of the
second argument; auxiliary for `containsSub`. -/
def containsSubAux (pat : List Char) : List Char → Bool
  | [] => pat.isEmpty
  | c :: rest => subListAt pat (c :: rest) || containsSubAux pat rest

/-- Python `pat in s` substring containment. -/
def containsSub (s pat : String) : Bool :=
  containsSubAux pat.data s.data

/-! ## base64url (no padding), `secrets.token_urlsafe`, SHA-256 -/

/-- The URL-safe base64 alphabet used by `base64.urlsafe_b64encode`. -/
def b64Alphabet : List Char :=
  "ABCDEFGHIJKLMNOPQRSTUVWXYZabcdefghijklmnopqrstuvwxyz0123456789-_".data

/-- The `n`-th character of the URL-safe base64 alphabet. -/
def b64Char (n : Nat) : Char := b64Alphabet.getD n 'A'

/-- Characters `secrets.token_urlsafe` may produce (URL-safe charset). -/
def isUrlSafeChar (c : Char) : Prop := c ∈ b64Alphabet

instance (c : Char) : Decidable (isUrlSafeChar c) := by
  unfold isUrlSafeChar; infer_instance

/-- base64url encoding of a byte list, with the `=` padding stripped
(the composition `base64.urlsafe_b64encode(...).rstrip(b"=")`). -/
def b64urlNoPadAux : List Nat → List Char
  | [] => []
  | [a] => [b64Char (a / 4), b64Char (a % 4 * 16)]
  | [a, b] => [b64Char (a / 4), b64Char (a % 4 * 16 + b / 16), b64Char (b % 16 * 4)]
  | a :: b :: c :: rest =>
      b64Char (a / 4) :: b64Char (a % 4 * 16 + b / 16) ::
      b64Char (b % 16 * 4 + c / 64) :: b64Char (c % 64) :: b64urlNoPadAux rest

/-- base64url-no-padding encoding as a string. -/
def b64urlNoPad (bytes : List Nat) : String := String.mk (b64urlNoPadAux bytes)

/-- `secrets.token_urlsafe(n)` given the `n` random bytes it draws:
base64url encoding of the bytes with padding stripped. -/
def tokenUrlsafe (randomBytes : List Nat) : String := b64urlNoPad randomBytes

/-- UTF-8 encoding of a string (`str.encode()`); exact for the ASCII
strings this flow encodes (a `token_urlsafe` output is pure ASCII). -/
def asciiBytes (s : String) : List Nat := s.data.map Char.toNat

/-- 2^32, the modulus for SHA-256 word arithmetic. -/
def M32 : Nat := 4294967296

/-- 32-bit right rotation on a `Nat` below 2^32. -/
def rotr (k n : Nat) : Nat := (n / 2 ^ k + n % 2 ^ k * 2 ^ (32 - k)) % M32

/-- Logical right shift. -/
def shr (k n : Nat) : Nat := n / 2 ^ k

def bsig0 (x : Nat) : Nat := rotr 2 x ^^^ rotr 13 x ^^^ rotr 22 x
def bsig1 (x : Nat) : Nat := rotr 6 x ^^^ rotr 11 x ^^^ rotr 25 x
def ssig0 (x : Nat) : Nat := rotr 7 x ^^^ rotr 18 x ^^^ shr 3 x
def ssig1 (x : Nat) : Nat := rotr 17 x ^^^ rotr 19 x ^^^ shr 10 x

/-- SHA-256 `Ch` function; `¬x` is complement within 32 bits. -/
def chF (x y z : Nat) : Nat := (x &&& y) ^^^ ((x ^^^ (M32 - 1)) &&& z)

/-- SHA-256 `Maj` function. -/
def majF (x y z : Nat) : Nat := (x &&& y) ^^^ (x &&& z) ^^^ (y &&& z)

/-- The 64 SHA-256 round constants of FIPS 180-4 (decimal). -/
def K256 : List Nat :=
  [1116352408, 1899447441, 3049323471, 3921009573, 961987163,
   1508970993, 2453635748, 2870763221, 3624381080, 310598401,
   607225278, 1426881987, 1925078388, 2162078206, 2614888103,
   3248222580, 3835390401, 4022224774, 264347078, 604807628,
   770255983, 1249150122, 1555081692, 1996064986, 2554220882,
   2821834349, 2952996808, 3210313671, 3336571891, 3584528711,
   113926993, 338241895, 666307205, 773529912, 1294757372,
   1396182291, 1695183700, 1986661051, 2177026350, 2456956037,
   2730485921, 2820302411, 3259730800, 3345764771, 3516065817,
   3600352804, 4094571909, 275423344, 430227734, 506948616,
   659060556, 883997877, 958139571, 1322822218, 1537002063,
   1747873779, 1955562222, 2024104815, 2227730452, 2361852424,
   2428436474, 2756734187, 3204031479, 3329325298]

/-- The SHA-256 initial hash value of FIPS 180-4 (decimal). -/
def H256 : List Nat :=
  [1779033703, 3144134277, 1013904242, 2773480762,
   1359893119, 2600822924, 528734635, 1541459225]

/-- Big-endian 8-byte encoding of a length in bits. -/
def lenBytes64 (n : Nat) : List Nat :=
  [n / 2 ^ 56 % 256, n / 2 ^ 48 % 256, n / 2 ^ 40 % 256, n / 2 ^ 32 % 256,
   n / 2 ^ 24 % 256, n / 2 ^ 16 % 256, n / 2 ^ 8 % 256, n % 256]

/-- SHA-256 message padding: append `0x80`, zeros to 56 mod 64, then the
64-bit big-endian bit length. -/
def shaPad (msg : List Nat) : List Nat :=
  msg ++ [0x80] ++ List.replicate ((119 - msg.length % 64) % 64) 0
      ++ lenBytes64 (8 * msg.length)

/-- Group bytes into big-endian 32-bit words. -/
def bytesToWords : List Nat → List Nat
  | a :: b :: c :: d :: rest =>
      (a * 2 ^ 24 + b * 2 ^ 16 + c * 2 ^ 8 + d) :: bytesToWords rest
  | _ => []

/-- Split a word list into blocks of 16 words (structural recursion with
an accumulator, so that the kernel can evaluate it). -/
def toBlocksAux : List Nat → List Nat → List (List Nat)
  | [], acc => if acc.isEmpty then [] else [acc.reverse]
  | w :: rest, acc =>
      if acc.length = 15 then (acc.reverse ++ [w]) :: toBlocksAux rest []
      else toBlocksAux rest (w :: acc)

/-- Split a word list into blocks of 16 words. -/
def toBlocks (ws : List Nat) : List (List Nat) := toBlocksAux ws []

/-- One step of the SHA-256 message-schedule extension. -/
def schedRound (w : List Nat) : List Nat :=
  w ++ [(ssig1 (w.getD (w.length - 2) 0) + w.getD (w.length - 7) 0
         + ssig0 (w.getD (w.length - 15) 0) + w.getD (w.length - 16) 0) % M32]

/-- Extend a 16-word block to the 64-word message schedule. -/
def schedule (w : List Nat) : List Nat :=
  (List.range 48).foldl (fun acc _ => schedRound acc) w

/-- One SHA-256 compression round on the 8-word working state. -/
def roundF (st : List Nat) (kw : Nat × Nat) : List Nat :=
  match st with
  | [a, b, c, d, e, f, g, h] =>
      let t1 := (h + bsig1 e + chF e f g + kw.1 + kw.2) % M32
      let t2 := (bsig0 a + majF a b c) % M32
      [(t1 + t2) % M32, a, b, c, (d + t1) % M32, e, f, g]
  | other => other

/-- SHA-256 compression function for one 16-word block. -/
def compress (h : List Nat) (block : List Nat) : List Nat :=
  let st := (K256.zip (schedule block)).foldl roundF h
  (h.zip st).map (fun p => (p.1 + p.2) % M32)

/-- Big-endian 4-byte encoding of a 32-bit word. -/
def wordBytes (w : Nat) : List Nat :=
  [w / 2 ^ 24 % 256, w / 2 ^ 16 % 256, w / 2 ^ 8 % 256, w % 256]

/-- SHA-256 of a byte list, as the 32-byte digest (`hashlib.sha256(...).digest()`). -/
def sha256 (msg : List Nat) : List Nat :=
  ((toBlocks (bytesToWords (shaPad msg))).foldl compress H256).map wordBytes |>.flatten

/-! ## URL query parsing (`urllib.parse.urlparse` / `parse_qs`) -/

/-- Everything strictly after the first occurrence of `c` ([] if absent). -/
def afterFirst (c : Char) (l : List Char) : List Char :=
  (l.dropWhile (fun x => x ≠ c)).drop 1

/-- Everything strictly before the first occurrence of `c`. -/
def beforeFirst (c : Char) (l : List Char) : List Char :=
  l.takeWhile (fun x => x ≠ c)

/-- `urlparse(url).query`: the fragment (after the first `#`) is split off
first, then the query is what follows the first `?` of the remainder. -/
def urlQuery (url : String) : String :=
  String.mk (afterFirst '?' (beforeFirst '#' url.data))

/-- Hexadecimal digit value of a character, if any. -/
def hexVal (c : Char) : Option Nat :=
  if '0' ≤ c ∧ c ≤ '9' then some (c.toNat - 48)
  else if 'a' ≤ c ∧ c ≤ 'f' then some (c.toNat - 87)
  else if 'A' ≤ c ∧ c ≤ 'F' then some (c.toNat - 55)
  else none

/-- `urllib.parse.unquote_plus`: `+` becomes a space and `%XX` escapes are
decoded; invalid escapes are left untouched.  Escapes are decoded to the
code point of the byte, which agrees with Python for ASCII data (multi-byte
UTF-8 sequences are not recombined in this model). -/
def unquotePlusAux : List Char → List Char
  | [] => []
  | '+' :: rest => ' ' :: unquotePlusAux rest
  | '%' :: a :: b :: rest =>
      match hexVal a, hexVal b with
      | some x, some y => Char.ofNat (16 * x + y) :: unquotePlusAux rest
      | _, _ => '%' :: unquotePlusAux (a :: b :: rest)
  | c :: rest => c :: unquotePlusAux rest

def unquotePlus (s : String) : String := String.mk (unquotePlusAux s.data)

/-- Split a character list on every occurrence of `sep` (Python
`s.split(sep)`). -/
def splitOnChar (sep : Char) : List Char → List (List Char)
  | [] => [[]]
  | c :: rest =>
      if c = sep then [] :: splitOnChar sep rest
      else
        match splitOnChar sep rest with
        | [] => [[c]]
        | g :: gs => (c :: g) :: gs

/-- `urllib.parse.parse_qs` on a query string, keeping the pairs in order
(`parse_qs` groups values per key; looking up the first pair for a key below
matches `parse_qs(...)[k][0]`).  Each field is split on the first `=`
(`split("=", 1)`); fields without `=` and fields with an empty value are
skipped (`keep_blank_values=False`). -/
def parseQs (qs : String) : List (String × String) :=
  (splitOnChar '&' qs.data).filterMap fun field =>
    if field.any (fun c => c = '=') then
      if afterFirst '=' field = [] then none
      else some (unquotePlus (String.mk (beforeFirst '=' field)),
                 unquotePlus (String.mk (afterFirst '=' field)))
    else none

/-- First value for key `k` (i.e. `parse_qs(qs).get(k, [None])[0]`). -/
def qsLookup (pairs : List (String × String)) (k : String) : Option String :=
  match pairs with
  | [] => none
  | p :: rest => if p.1 = k then some p.2 else qsLookup rest k

/-! ## JSON values and HTTP request/response model -/

/-- JSON values, as far as this flow inspects them: `null` (a missing or
null field), strings, and objects.  Other JSON types never occur in the
fields the scripts read. -/
inductive Json where
  | null : Json
  | str : String → Json
  | obj : List (String × Json) → Json

/-- `d.get(k)` on a JSON object (first binding wins, keys are unique in a
Python dict). -/
def Json.get? : Json → String → Option Json
  | .obj fs, k => lookupField fs k
  | _, _ => none
where
  lookupField : List (String × Json) → String → Option Json
    | [], _ => none
    | p :: rest, k => if p.1 = k then some p.2 else lookupField rest k

/-- Python truthiness of a JSON value (`if not x`). -/
def Json.truthy : Json → Bool
  | .null => false
  | .str s => !(s == "")
  | .obj fs => !fs.isEmpty

/-- How a JSON value prints inside a Python f-string (`str(x)`).  Strings
print as themselves and `None` as `"None"`; the rendering of a nested
object is abbreviated here (no claim depends on it). -/
def jsonRender : Json → String
  | .null => "None"
  | .str s => s
  | .obj _ => "\x7bobject\x7d"

/-- `x = d.get(k)` followed by `if not x`: `some` of the rendered value
when the field is present and truthy, `none` otherwise. -/
def jsonFalsyOr (tv : Option Json) : Option String :=
  match tv with
  | none => none
  | some j => if j.truthy then some (jsonRender j) else none

inductive Method where
  | GET | PUT | PATCH | POST
deriving DecidableEq, Repr

/-- Which call site of `_logto_login` issued a request. -/
inductive ReqTag where
  | authStart | signInPut | identifiersPatch | interactionSubmit
  | interimRedirectGet | consentScreenGet | consentPost | finalRedirectGet
  | tokenPost | exchangePost
deriving DecidableEq, Repr

/-- An HTTP request as issued by the scripts: `params` is the `params=`
dict, `jsonBody` the `json=` payload, `formData` the `data=` payload,
`usesSession` whether it went through the shared `requests.Session`
(cookie context), and `timeout` the explicit `timeout=` argument
(`none` when the call does not pass one). -/
structure HttpRequest where
  tag : ReqTag
  method : Method
  url : String
  params : List (String × String)
  jsonBody : Option Json
  formData : List (String × String)
  usesSession : Bool
  allowRedirects : Bool
  timeout : Option Nat

/-- An HTTP response as consumed by the scripts: parsed JSON body
(`r.json()`), raw text (`r.text`), and the `Location` header. -/
structure HttpResponse where
  status : Nat
  body : Json
  text : String
  location : Option String

/-- The outcome of `_logto_login`.  The script prints a diagnostic and
exits non-zero on failure; the constructors name the spec's error taxonomy
for each exit site, carrying the message data the script would print.
`pythonError` marks a path where the script would raise an uncaught
exception (using a missing `redirectTo` as a URL). -/
inductive AuthResult where
  | token : String → AuthResult
  | invalidCredentials : String → AuthResult
  | providerError : Nat → String → AuthResult
  | unexpectedResponse : String → AuthResult
  | noAuthorizationCode : String → AuthResult
  | tokenExchangeFailed : String → AuthResult
  | backendExchangeFailed : String → AuthResult
  | pythonError : String → AuthResult
deriving DecidableEq, Repr

/-! ## The Logto login flow (`_logto_login` in `scripts/alerting_config.py`) -/

/-- `_LOGTO_ENDPOINT`. -/
def LOGTO_ENDPOINT : String := "https://qa.id.nethesis.it"
/-- `_LOGTO_APP_ID`. -/
def LOGTO_APP_ID : String := "amz2744kof0iq3a6i7csu"
/-- `_LOGTO_REDIRECT_URI_PATH`. -/
def LOGTO_REDIRECT_URI_PATH : String := "login-redirect"

/-- `redirect_uri = f"{base_url.rstrip('/')}/{_LOGTO_REDIRECT_URI_PATH}"`. -/
def redirectUriOf (baseUrl : String) : String :=
  rstripSlash baseUrl ++ "/" ++ LOGTO_REDIRECT_URI_PATH

/-- `backend_url = f"{base_url.rstrip('/')}/backend/api"`. -/
def backendUrlOf (baseUrl : String) : String :=
  rstripSlash baseUrl ++ "/backend/api"

/-- The PKCE `code_challenge` derived from the 64 random bytes that
`secrets.token_urlsafe(64)` drew for the `code_verifier`:
`base64.urlsafe_b64encode(hashlib.sha256(code_verifier.encode()).digest()).rstrip(b"=")`. -/
def codeChallengeOf (rand64 : List Nat) : String :=
  b64urlNoPad (sha256 (asciiBytes (tokenUrlsafe rand64)))

/-- Step 1: `session.get(f"{_LOGTO_ENDPOINT}/oidc/auth", params=..., allow_redirects=False)`. -/
def reqAuth (redirectUri oauthState codeChallenge : String) : HttpRequest :=
  { tag := .authStart, method := .GET, url := LOGTO_ENDPOINT ++ "/oidc/auth",
    params := [("client_id", LOGTO_APP_ID), ("redirect_uri", redirectUri),
               ("response_type", "code"),
               ("scope", "openid profile email offline_access urn:logto:scope:organizations urn:logto:scope:organization_roles"),
               ("state", oauthState), ("code_challenge", codeChallenge),
               ("code_challenge_method", "S256")],
    jsonBody := none, formData := [], usesSession := true,
    allowRedirects := false, timeout := none }

/-- Step 2a: `session.put(f"{_LOGTO_ENDPOINT}/api/interaction", json={"event": "SignIn"})`. -/
def reqSignIn : HttpRequest :=
  { tag := .signInPut, method := .PUT, url := LOGTO_ENDPOINT ++ "/api/interaction",
    params := [], jsonBody := some (.obj [("event", .str "SignIn")]), formData := [],
    usesSession := true, allowRedirects := true, timeout := none }

/-- Step 2b: `session.patch(f"{_LOGTO_ENDPOINT}/api/interaction/identifiers", json={"email": ..., "password": ...})`. -/
def reqIdent (email password : String) : HttpRequest :=
  { tag := .identifiersPatch, method := .PATCH,
    url := LOGTO_ENDPOINT ++ "/api/interaction/identifiers",
    params := [], jsonBody := some (.obj [("email", .str email), ("password", .str password)]),
    formData := [], usesSession := true, allowRedirects := true, timeout := none }

/-- Step 3: `session.post(f"{_LOGTO_ENDPOINT}/api/interaction/submit")`. -/
def reqSubmit : HttpRequest :=
  { tag := .interactionSubmit, method := .POST,
    url := LOGTO_ENDPOINT ++ "/api/interaction/submit",
    params := [], jsonBody := none, formData := [],
    usesSession := true, allowRedirects := true, timeout := none }

/-- Step 4: `session.get(redirect_to, allow_redirects=False)`. -/
def reqInterim (url : String) : HttpRequest :=
  { tag := .interimRedirectGet, method := .GET, url := url,
    params := [], jsonBody := none, formData := [],
    usesSession := true, allowRedirects := false, timeout := none }

/-- Consent screen fetch: `session.get(f"{_LOGTO_ENDPOINT}{r5.headers['Location']}", allow_redirects=False)`. -/
def reqConsentScreen (location : String) : HttpRequest :=
  { tag := .consentScreenGet, method := .GET, url := LOGTO_ENDPOINT ++ location,
    params := [], jsonBody := none, formData := [],
    usesSession := true, allowRedirects := false, timeout := none }

/-- Consent submission: `session.post(f"{_LOGTO_ENDPOINT}/api/interaction/consent")`. -/
def reqConsentPost : HttpRequest :=
  { tag := .consentPost, method := .POST,
    url := LOGTO_ENDPOINT ++ "/api/interaction/consent",
    params := [], jsonBody := none, formData := [],
    usesSession := true, allowRedirects := true, timeout := none }

/-- Step 5: `session.get(redirect_to, allow_redirects=False)` (final redirect). -/
def reqFinal (url : String) : HttpRequest :=
  { tag := .finalRedirectGet, method := .GET, url := url,
    params := [], jsonBody := none, formData := [],
    usesSession := true, allowRedirects := false, timeout := none }

/-- Step 6: `requests.post(f"{_LOGTO_ENDPOINT}/oidc/token", data={...})` —
note: a plain `requests.post`, not through the session. -/
def reqToken (code redirectUri codeVerifier : String) : HttpRequest :=
  { tag := .tokenPost, method := .POST, url := LOGTO_ENDPOINT ++ "/oidc/token",
    params := [],
    jsonBody := none,
    formData := [("grant_type", "authorization_code"), ("code", code),
                 ("redirect_uri", redirectUri), ("client_id", LOGTO_APP_ID),
                 ("code_verifier", codeVerifier)],
    usesSession := false, allowRedirects := true, timeout := none }

/-- Step 7: `requests.post(f"{backend_url}/auth/exchange", json={"access_token": ...}, headers=...)` —
also a plain `requests.post`. -/
def reqExchange (backendUrl logtoToken : String) : HttpRequest :=
  { tag := .exchangePost, method := .POST, url := backendUrl ++ "/auth/exchange",
    params := [], jsonBody := some (.obj [("access_token", .str logtoToken)]),
    formData := [], usesSession := false, allowRedirects := true, timeout := none }

/-- The 422 / non-2xx error message: `r.json().get('message', r.text)`. -/
def msg422 (r : HttpResponse) : String :=
  match r.body.get? "message" with
  | some j => jsonRender j
  | none => r.text

/-- `callback_url = r_final.headers.get("Location", "")`. -/
def callbackOf (r : HttpResponse) : String := r.location.getD ""

/-- The extracted authorization code with the `if not code` convention:
`parse_qs(urlparse(callback_url).query).get("code", [None])[0]`, with
`""` standing for a missing code (`parse_qs` never yields empty values). -/
def codeOf (r : HttpResponse) : String :=
  (qsLookup (parseQs (urlQuery (callbackOf r))) "code").getD ""

/-- The tail of the flow shared by the consent and no-consent branches
(steps 5-7 of the script): follow the final redirect, extract the `code`
query parameter from its `Location` header, exchange it at the provider
token endpoint, then exchange the provider token at the backend.
`idx` is the index of the next request (for the response environment). -/
def finishFlow (env : Nat → HttpResponse) (idx : Nat) (trace : List HttpRequest)
    (redirectTo redirectUri backendUrl codeVerifier : String) :
    List HttpRequest × AuthResult :=
  if codeOf (env idx) = "" then
    (trace ++ [reqFinal redirectTo], .noAuthorizationCode (callbackOf (env idx)))
  else
    match jsonFalsyOr ((env (idx + 1)).body.get? "access_token") with
    | none =>
        (trace ++ [reqFinal redirectTo,
                   reqToken (codeOf (env idx)) redirectUri codeVerifier],
         .tokenExchangeFailed (env (idx + 1)).text)
    | some logtoToken =>
        match jsonFalsyOr ((((env (idx + 2)).body.get? "data").getD
            (.obj [])).get? "token") with
        | none =>
            (trace ++ [reqFinal redirectTo,
                       reqToken (codeOf (env idx)) redirectUri codeVerifier,
                       reqExchange backendUrl logtoToken],
             .backendExchangeFailed (env (idx + 2)).text)
        | some token =>
            (trace ++ [reqFinal redirectTo,
                       reqToken (codeOf (env idx)) redirectUri codeVerifier,
                       reqExchange backendUrl logtoToken],
             .token token)

/-- The first three requests, issued unconditionally (auth start, sign-in
PUT, identifiers PATCH). -/
def loginPre (baseUrl email password : String) (rand64 rand16 : List Nat) :
    List HttpRequest :=
  [reqAuth (redirectUriOf baseUrl) (tokenUrlsafe rand16) (codeChallengeOf rand64),
   reqSignIn, reqIdent email password]

/-- `_logto_login(base_url, email, password)`.  `env i` is the response
received by the `i`-th request issued; `rand64` and `rand16` are the
random bytes drawn by `secrets.token_urlsafe(64)` (code verifier) and
`secrets.token_urlsafe(16)` (state).  Returns the list of requests issued,
in order, and the outcome. -/
def logtoLogin (env : Nat → HttpResponse) (baseUrl email password : String)
    (rand64 rand16 : List Nat) : List HttpRequest × AuthResult :=
  if (env 2).status = 422 then
    (loginPre baseUrl email password rand64 rand16,
     .invalidCredentials (msg422 (env 2)))
  else if 400 ≤ (env 2).status then
    (loginPre baseUrl email password rand64 rand16,
     .providerError (env 2).status (env 2).text)
  else
    match jsonFalsyOr ((env 3).body.get? "redirectTo") with
    | none =>
        (loginPre baseUrl email password rand64 rand16 ++ [reqSubmit],
         .unexpectedResponse (env 3).text)
    | some redirectTo =>
      if containsSub ((env 4).location.getD "") "consent" then
        match (env 6).body.get? "redirectTo" with
        | some (.str redirectTo2) =>
            finishFlow env 7
              (loginPre baseUrl email password rand64 rand16 ++
                 [reqSubmit, reqInterim redirectTo,
                  reqConsentScreen ((env 4).location.getD ""), reqConsentPost])
              redirectTo2 (redirectUriOf baseUrl) (backendUrlOf baseUrl)
              (tokenUrlsafe rand64)
        | _ =>
            (loginPre baseUrl email password rand64 rand16 ++
               [reqSubmit, reqInterim redirectTo,
                reqConsentScreen ((env 4).location.getD ""), reqConsentPost],
             .pythonError "session.get called with a non-string redirectTo")
      else
        finishFlow env 5
          (loginPre baseUrl email password rand64 rand16 ++
             [reqSubmit, reqInterim redirectTo])
          redirectTo (redirectUriOf baseUrl) (backendUrlOf baseUrl)
          (tokenUrlsafe rand64)

/-! ## `scripts/alert.py`: alert payload construction -/

/-- Python dict assignment `d[k] = v` on an insertion-ordered association
list with unique keys: replace the value in place if the key is present,
otherwise append the binding. -/
def dictInsert : List (String × String) → String × String → List (String × String)
  | [], kv => [kv]
  | p :: rest, kv =>
      if p.1 = kv.1 then (p.1, kv.2) :: rest else p :: dictInsert rest kv

/-- `d.get(k)` / `d[k]` lookup on an association list (first binding). -/
def dictLookup : List (String × String) → String → Option String
  | [], _ => none
  | p :: rest, k => if p.1 = k then some p.2 else dictLookup rest k

/-- The value of the last pair with key `k` in a raw pair list — the value
a Python dict built from the list in order would hold at `k`. -/
def lastVal (l : List (String × String)) (k : String) : Option String :=
  l.foldl (fun acc p => if p.1 = k then some p.2 else acc) none

/-- `parse_kv(pairs)`: each `"k=v"` string is split on the first `=`
(`pair.split("=", 1)`) and inserted into a dict; a string without `=`
makes the script exit (modelled as `none`). -/
def parseKv (pairs : List String) : Option (List (String × String)) :=
  pairs.foldlM
    (fun acc pair =>
      if pair.data.any (fun c => c = '=') then
        some (dictInsert acc
          (String.mk (beforeFirst '=' pair.data),
           String.mk (afterFirst '=' pair.data)))
      else none)
    []

/-- The labels dict of `push_alert` / `resolve_alert`: start from
`{"alertname": ..., "severity": ..., "system_key": ...}` and then
`labels.update(parse_kv(args.labels))`. -/
def mkLabels (alertname severity key : String)
    (parsed : List (String × String)) : List (String × String) :=
  parsed.foldl dictInsert
    [("alertname", alertname), ("severity", severity), ("system_key", key)]

/-- Gregorian civil date from a day count since 1970-01-01 (the calendar
arithmetic behind `datetime`; Howard Hinnant's `civil_from_days`,
specialised to non-negative day counts). -/
def civilFromDays (z0 : Nat) : Nat × Nat × Nat :=
  let z := z0 + 719468
  let era := z / 146097
  let doe := z % 146097
  let yoe := (doe - doe / 1460 + doe / 36524 - doe / 146096) / 365
  let y := yoe + era * 400
  let doy := doe - (365 * yoe + yoe / 4 - yoe / 100)
  let mp := (5 * doy + 2) / 153
  let d := doy - (153 * mp + 2) / 5 + 1
  let m := if mp < 10 then mp + 3 else mp - 9
  (if m ≤ 2 then y + 1 else y, m, d)

/-- Zero-pad to two digits (`%m`, `%d`, `%H`, `%M`, `%S`). -/
def pad2 (n : Nat) : String :=
  if n < 10 then "0" ++ toString n else toString n

/-- Zero-pad to four digits (`%Y`). -/
def pad4 (n : Nat) : String :=
  if n < 10 then "000" ++ toString n
  else if n < 100 then "00" ++ toString n
  else if n < 1000 then "0" ++ toString n
  else toString n

/-- `datetime.fromtimestamp(t, timezone.utc).strftime("%Y-%m-%dT%H:%M:%SZ")`
for a non-negative epoch second count `t`. -/
def fmtTime (t : Nat) : String :=
  let days := t / 86400
  let secs := t % 86400
  let ymd := civilFromDays days
  pad4 ymd.1 ++ "-" ++ pad2 ymd.2.1 ++ "-" ++ pad2 ymd.2.2 ++ "T" ++
    pad2 (secs / 3600) ++ ":" ++ pad2 (secs % 3600 / 60) ++ ":" ++
    pad2 (secs % 60) ++ "Z"

/-- One element of the JSON array POSTed to `/alertmanager/api/v2/alerts`. -/
structure AlertObj where
  labels : List (String × String)
  annotations : List (String × String)
  generatorURL : String
  startsAt : String
  endsAt : String
deriving DecidableEq, Repr

/-- The POST body of `push_alert` (the `payload` list), given the parsed
CLI arguments and the current UTC time `now` in epoch seconds.  `none`
models the `sys.exit(1)` of `parse_kv` on a malformed `key=value` pair. -/
def pushAlert (alertname severity key : String)
    (labelArgs annotationArgs : List String) (now : Nat) :
    Option (List AlertObj) :=
  match parseKv labelArgs, parseKv annotationArgs with
  | some parsedLabels, some parsedAnnotations =>
      some [{ labels := mkLabels alertname severity key parsedLabels,
              annotations := parsedAnnotations,
              generatorURL := "http://" ++ key ++ "/alert",
              startsAt := fmtTime now,
              endsAt := "0001-01-01T00:00:00Z" }]
  | _, _ => none

/-- The POST body of `resolve_alert`, given the parsed CLI arguments and
the current UTC time `now` in epoch seconds (`now - timedelta(hours=1)`
is `now - 3600`; the model assumes `3600 ≤ now`, i.e. a clock at least an
hour past the epoch). -/
def resolveAlert (alertname severity key : String)
    (labelArgs : List String) (now : Nat) : Option (List AlertObj) :=
  match parseKv labelArgs with
  | some parsedLabels =>
      some [{ labels := mkLabels alertname severity key parsedLabels,
              annotations := [("summary", "resolved")],
              generatorURL := "http://" ++ key ++ "/alert",
              startsAt := fmtTime (now - 3600),
              endsAt := fmtTime now }]
  | none => none

/-! ## Helper lemmas -/

/-- Left-biased choice on `Option String`. -/
def optOr : Option String → Option String → Option String
  | some v, _ => some v
  | none, b => b

theorem dictLookup_dictInsert (d : List (String × String))
    (kv : String × String) (k : String) :
    dictLookup (dictInsert d kv) k
      = if kv.1 = k then some kv.2 else dictLookup d k := by
  induction d with
  | nil => simp [dictInsert, dictLookup]
  | cons p rest ih =>
      by_cases hp : p.1 = kv.1
      · simp only [dictInsert, if_pos hp, dictLookup]
        split_ifs <;> simp_all
      · simp only [dictInsert, if_neg hp, dictLookup, ih]
        split_ifs <;> simp_all

theorem foldl_lastStep (l : List (String × String)) (k : String) :
    ∀ s, l.foldl (fun acc p => if p.1 = k then some p.2 else acc) s
      = optOr (lastVal l k) s := by
  induction l with
  | nil => intro s; simp [lastVal, optOr]
  | cons p rest ih =>
      intro s
      have hl : lastVal (p :: rest) k
          = optOr (lastVal rest k) (if p.1 = k then some p.2 else none) := by
        simp only [lastVal, List.foldl_cons]
        exact ih _
      simp only [List.foldl_cons]
      rw [ih _, hl]
      cases lastVal rest k <;> split_ifs <;> simp [optOr]

theorem dictLookup_foldl_dictInsert (l : List (String × String))
    (init : List (String × String)) (k : String) :
    dictLookup (l.foldl dictInsert init) k
      = optOr (lastVal l k) (dictLookup init k) := by
  induction l generalizing init with
  | nil => simp [lastVal, optOr]
  | cons p rest ih =>
      simp only [List.foldl_cons, ih, dictLookup_dictInsert]
      have hl : lastVal (p :: rest) k
          = optOr (lastVal rest k) (if p.1 = k then some p.2 else none) := by
        simp only [lastVal, List.foldl_cons]
        exact foldl_lastStep rest k _
      rw [hl]
      cases lastVal rest k <;> split_ifs <;> simp_all [optOr]

theorem lastVal_eq_optOr (p : String × String) (rest : List (String × String))
    (k : String) :
    lastVal (p :: rest) k
      = optOr (lastVal rest k) (if p.1 = k then some p.2 else none) := by
  simp only [lastVal, List.foldl_cons]
  exact foldl_lastStep rest k _

/-- Lookup in the labels dict: a `--labels` binding wins, otherwise the
flag-derived base value. -/
theorem dictLookup_mkLabels (alertname severity key : String)
    (parsed : List (String × String)) (k : String) :
    dictLookup (mkLabels alertname severity key parsed) k
      = optOr (lastVal parsed k)
          (dictLookup [("alertname", alertname), ("severity", severity),
                       ("system_key", key)] k) := by
  unfold mkLabels
  exact dictLookup_foldl_dictInsert parsed _ k

theorem b64urlNoPadAux_length :
    ∀ l : List Nat, (b64urlNoPadAux l).length = (l.length * 4 + 2) / 3
  | [] => rfl
  | [_] => by simp [b64urlNoPadAux]
  | [_, _] => by simp [b64urlNoPadAux]
  | _ :: _ :: _ :: rest => by
      simp only [b64urlNoPadAux, List.length_cons]
      rw [b64urlNoPadAux_length rest]
      omega

theorem b64Char_mem (n : Nat) (h : n < 64) : b64Char n ∈ b64Alphabet := by
  have : ∀ m, m < 64 → b64Char m ∈ b64Alphabet := by decide
  exact this n h

theorem b64urlNoPadAux_charset :
    ∀ l : List Nat, (∀ b ∈ l, b < 256) →
      ∀ c ∈ b64urlNoPadAux l, c ∈ b64Alphabet
  | [], _, c, hc => by simp [b64urlNoPadAux] at hc
  | [a], h, c, hc => by
      have ha : a < 256 := h a (by simp)
      simp only [b64urlNoPadAux, List.mem_cons, List.not_mem_nil, or_false] at hc
      rcases hc with rfl | rfl
      · exact b64Char_mem _ (by omega)
      · exact b64Char_mem _ (by omega)
  | [a, b], h, c, hc => by
      have ha : a < 256 := h a (by simp)
      have hb : b < 256 := h b (by simp)
      simp only [b64urlNoPadAux, List.mem_cons, List.not_mem_nil, or_false] at hc
      rcases hc with rfl | rfl | rfl
      · exact b64Char_mem _ (by omega)
      · exact b64Char_mem _ (by omega)
      · exact b64Char_mem _ (by omega)
  | a :: b :: d :: rest, h, c, hc => by
      have ha : a < 256 := h a (by simp)
      have hb : b < 256 := h b (by simp)
      have hd : d < 256 := h d (by simp)
      simp only [b64urlNoPadAux, List.mem_cons] at hc
      rcases hc with rfl | rfl | rfl | rfl | hc
      · exact b64Char_mem _ (by omega)
      · exact b64Char_mem _ (by omega)
      · exact b64Char_mem _ (by omega)
      · exact b64Char_mem _ (by omega)
      · exact b64urlNoPadAux_charset rest
          (fun x hx => h x (by simp [hx])) c hc

/-- A 422 on the credentials PATCH stops the flow after the third request. -/
theorem logto_422 (env : Nat → HttpResponse) (baseUrl email password : String)
    (rand64 rand16 : List Nat) (h : (env 2).status = 422) :
    logtoLogin env baseUrl email password rand64 rand16
      = ([reqAuth (redirectUriOf baseUrl) (tokenUrlsafe rand16)
            (codeChallengeOf rand64),
          reqSignIn, reqIdent email password],
         .invalidCredentials (msg422 (env 2))) := by
  simp [logtoLogin, loginPre, h]

/-- Every request `finishFlow` adds is issued without a timeout. -/
theorem finishFlow_timeout (env : Nat → HttpResponse) (idx : Nat)
    (trace : List HttpRequest) (rt ru bu cv : String)
    (h : ∀ r ∈ trace, r.timeout = none) :
    ∀ r ∈ (finishFlow env idx trace rt ru bu cv).1, r.timeout = none := by
  intro r hr
  unfold finishFlow at hr
  split at hr
  · rcases List.mem_append.mp hr with h1 | h1
    · exact h r h1
    · simp only [List.mem_singleton] at h1
      subst h1; rfl
  · split at hr
    · rcases List.mem_append.mp hr with h1 | h1
      · exact h r h1
      · simp only [List.mem_cons, List.not_mem_nil, or_false] at h1
        rcases h1 with rfl | rfl <;> rfl
    · split at hr <;>
      · rcases List.mem_append.mp hr with h1 | h1
        · exact h r h1
        · simp only [List.mem_cons, List.not_mem_nil, or_false] at h1
          rcases h1 with rfl | rfl | rfl <;> rfl

/-- The trace `finishFlow` produces is the given prefix, the final
redirect fetch, and then only token-endpoint / backend-exchange posts. -/
theorem finishFlow_decomp (env : Nat → HttpResponse) (idx : Nat)
    (trace : List HttpRequest) (rt ru bu cv : String) :
    ∃ rest, (finishFlow env idx trace rt ru bu cv).1
        = trace ++ reqFinal rt :: rest
      ∧ ∀ r ∈ rest, r.tag = .tokenPost ∨ r.tag = .exchangePost := by
  unfold finishFlow
  split
  · exact ⟨[], by simp⟩
  · split
    · exact ⟨[reqToken (codeOf (env idx)) ru cv], by simp [reqToken]⟩
    · rename_i x logtoToken heq
      split <;>
        exact ⟨[reqToken (codeOf (env idx)) ru cv, reqExchange bu logtoToken],
               by simp [reqToken, reqExchange]⟩

/-- Every request in `loginPre` is issued without a timeout. -/
theorem loginPre_timeout (baseUrl email password : String)
    (rand64 rand16 : List Nat) :
    ∀ r ∈ loginPre baseUrl email password rand64 rand16, r.timeout = none := by
  intro r hr
  simp only [loginPre, List.mem_cons, List.not_mem_nil, or_false] at hr
  rcases hr with rfl | rfl | rfl <;> rfl

/-! ## Concrete response environments for the witnesses -/

/-- A response environment whose credentials PATCH answer is a 422. -/
def env422 : Nat → HttpResponse := fun _ =>
  { status := 422, body := .obj [("message", .str "wrong password")],
    text := "raw", location := none }

/-- A response environment for a fully successful, consent-free run. -/
def envOk : Nat → HttpResponse := fun i =>
  if i = 3 then
    { status := 200, body := .obj [("redirectTo", .str "https://logto/next")],
      text := "", location := none }
  else if i = 4 then
    { status := 302, body := .obj [], text := "", location := some "/next2" }
  else if i = 5 then
    { status := 302, body := .obj [], text := "",
      location := some "https://cb/login-redirect?code=abc&state=s" }
  else if i = 6 then
    { status := 200, body := .obj [("access_token", .str "LT")],
      text := "", location := none }
  else if i = 7 then
    { status := 200, body := .obj [("data", .obj [("token", .str "JWT")])],
      text := "", location := none }
  else { status := 200, body := .obj [], text := "", location := none }

/-- Like `envOk`, but the final redirect's `Location` has no `code`. -/
def envNoCode : Nat → HttpResponse := fun i =>
  if i = 3 then
    { status := 200, body := .obj [("redirectTo", .str "https://logto/next")],
      text := "", location := none }
  else if i = 4 then
    { status := 302, body := .obj [], text := "", location := some "/next2" }
  else if i = 5 then
    { status := 302, body := .obj [], text := "",
      location := some "https://cb/login-redirect?error=denied" }
  else { status := 200, body := .obj [], text := "", location := none }

/-- A response environment taking the consent branch. -/
def envConsent : Nat → HttpResponse := fun i =>
  if i = 3 then
    { status := 200, body := .obj [("redirectTo", .str "https://logto/next")],
      text := "", location := none }
  else if i = 4 then
    { status := 302, body := .obj [], text := "",
      location := some "/consent?x=1" }
  else if i = 6 then
    { status := 200, body := .obj [("redirectTo", .str "https://logto/after")],
      text := "", location := none }
  else { status := 200, body := .obj [], text := "", location := none }

/-- A response environment whose interaction-submit answer has no
`redirectTo`. -/
def envNoRedirect : Nat → HttpResponse := fun _ =>
  { status := 200, body := .obj [], text := "noredirect", location := none }

/-! ## The claims -/

/-- C3: if the credentials-submission PATCH response has status 422, the
login fails with the invalid-credentials error (message from the body's
`message` field, or the raw body if absent) and issues none of the
subsequent requests: the trace is exactly the three initial requests, and
no request with a later tag appears. -/
theorem C3_invalid_credentials_stops_flow (env : Nat → HttpResponse)
    (baseUrl email password : String) (rand64 rand16 : List Nat)
    (h : (env 2).status = 422) :
    logtoLogin env baseUrl email password rand64 rand16
      = ([reqAuth (redirectUriOf baseUrl) (tokenUrlsafe rand16)
            (codeChallengeOf rand64),
          reqSignIn, reqIdent email password],
         .invalidCredentials (msg422 (env 2)))
    ∧ ∀ r ∈ (logtoLogin env baseUrl email password rand64 rand16).1,
        r.tag ≠ .interactionSubmit ∧ r.tag ≠ .interimRedirectGet ∧
        r.tag ≠ .consentScreenGet ∧ r.tag ≠ .consentPost ∧
        r.tag ≠ .finalRedirectGet ∧ r.tag ≠ .tokenPost ∧ r.tag ≠ .exchangePost := by
  have h1 := logto_422 env baseUrl email password rand64 rand16 h
  refine ⟨h1, ?_⟩
  rw [h1]
  intro r hr
  simp only [List.mem_cons, List.not_mem_nil, or_false] at hr
  rcases hr with rfl | rfl | rfl <;> simp [reqAuth, reqSignIn, reqIdent]

/-- C3 witness: a concrete 422 environment exercises the theorem. -/
theorem C3_invalid_credentials_stops_flow_witness :
    (env422 2).status = 422 ∧
    (logtoLogin env422 "https://my.example" "user@example.com" "pw"
        (List.replicate 64 0) (List.replicate 16 0)
      = ([reqAuth (redirectUriOf "https://my.example")
            (tokenUrlsafe (List.replicate 16 0))
            (codeChallengeOf (List.replicate 64 0)),
          reqSignIn, reqIdent "user@example.com" "pw"],
         .invalidCredentials (msg422 (env422 2)))
    ∧ ∀ r ∈ (logtoLogin env422 "https://my.example" "user@example.com" "pw"
          (List.replicate 64 0) (List.replicate 16 0)).1,
        r.tag ≠ .interactionSubmit ∧ r.tag ≠ .interimRedirectGet ∧
        r.tag ≠ .consentScreenGet ∧ r.tag ≠ .consentPost ∧
        r.tag ≠ .finalRedirectGet ∧ r.tag ≠ .tokenPost ∧ r.tag ≠ .exchangePost) :=
  ⟨rfl, C3_invalid_credentials_stops_flow env422 "https://my.example"
      "user@example.com" "pw" (List.replicate 64 0) (List.replicate 16 0) rfl⟩

/-- C7: if the interaction-submit response body has no `redirectTo` field,
the login fails with the unexpected-response error and performs no further
requests: the trace is exactly the first four requests. -/
theorem C7_missing_redirectTo_stops_flow (env : Nat → HttpResponse)
    (baseUrl email password : String) (rand64 rand16 : List Nat)
    (h1 : (env 2).status ≠ 422) (h2 : (env 2).status < 400)
    (h3 : (env 3).body.get? "redirectTo" = none) :
    logtoLogin env baseUrl email password rand64 rand16
      = ([reqAuth (redirectUriOf baseUrl) (tokenUrlsafe rand16)
            (codeChallengeOf rand64),
          reqSignIn, reqIdent email password, reqSubmit],
         .unexpectedResponse (env 3).text)
    ∧ ∀ r ∈ (logtoLogin env baseUrl email password rand64 rand16).1,
        r.tag ≠ .interimRedirectGet ∧ r.tag ≠ .consentScreenGet ∧
        r.tag ≠ .consentPost ∧ r.tag ≠ .finalRedirectGet ∧
        r.tag ≠ .tokenPost ∧ r.tag ≠ .exchangePost := by
  have hmain : logtoLogin env baseUrl email password rand64 rand16
      = ([reqAuth (redirectUriOf baseUrl) (tokenUrlsafe rand16)
            (codeChallengeOf rand64),
          reqSignIn, reqIdent email password, reqSubmit],
         .unexpectedResponse (env 3).text) := by
    simp [logtoLogin, loginPre, h1, h3, jsonFalsyOr, Nat.not_le.mpr h2]
  refine ⟨hmain, ?_⟩
  rw [hmain]
  intro r hr
  simp only [List.mem_cons, List.not_mem_nil, or_false] at hr
  rcases hr with rfl | rfl | rfl | rfl <;> simp [reqAuth, reqSignIn, reqIdent, reqSubmit]

/-- C7 witness: a concrete submit response without `redirectTo`. -/
theorem C7_missing_redirectTo_stops_flow_witness :
    ((envNoRedirect 2).status ≠ 422 ∧ (envNoRedirect 2).status < 400 ∧
     (envNoRedirect 3).body.get? "redirectTo" = none) ∧
    (logtoLogin envNoRedirect "https://my.example" "user@example.com" "pw"
        (List.replicate 64 0) (List.replicate 16 0)
      = ([reqAuth (redirectUriOf "https://my.example")
            (tokenUrlsafe (List.replicate 16 0))
            (codeChallengeOf (List.replicate 64 0)),
          reqSignIn, reqIdent "user@example.com" "pw", reqSubmit],
         .unexpectedResponse (envNoRedirect 3).text)
    ∧ ∀ r ∈ (logtoLogin envNoRedirect "https://my.example" "user@example.com" "pw"
          (List.replicate 64 0) (List.replicate 16 0)).1,
        r.tag ≠ .interimRedirectGet ∧ r.tag ≠ .consentScreenGet ∧
        r.tag ≠ .consentPost ∧ r.tag ≠ .finalRedirectGet ∧
        r.tag ≠ .tokenPost ∧ r.tag ≠ .exchangePost) :=
  ⟨⟨by decide, by decide, rfl⟩,
   C7_missing_redirectTo_stops_flow envNoRedirect "https://my.example"
     "user@example.com" "pw" (List.replicate 64 0) (List.replicate 16 0)
     (by decide) (by decide) rfl⟩

/-- C2 counterexample: the claim "every HTTP request issued during the
login sequence is made with a bounded timeout" is false for the code: in a
concrete run, the sign-in PUT (like every other request of the flow) is
issued with no timeout at all. -/
theorem C2_bounded_timeout_counterexample :
    ¬ ∀ r ∈ (logtoLogin env422 "https://my.example" "user@example.com" "pw"
          (List.replicate 64 0) (List.replicate 16 0)).1,
        ∃ t, r.timeout = some t := by
  intro hall
  have hmem : reqSignIn ∈ (logtoLogin env422 "https://my.example"
      "user@example.com" "pw" (List.replicate 64 0) (List.replicate 16 0)).1 := by
    rw [logto_422 env422 "https://my.example" "user@example.com" "pw"
        (List.replicate 64 0) (List.replicate 16 0) rfl]
    simp
  rcases hall reqSignIn hmem with ⟨t, ht⟩
  exact Option.noConfusion ht

/-- C2 (amended): no HTTP request issued during the login sequence carries
an explicit timeout — every request of every run, on every branch of the
flow, has `timeout = none`. -/
theorem C2_no_request_has_timeout (env : Nat → HttpResponse)
    (baseUrl email password : String) (rand64 rand16 : List Nat) :
    ∀ r ∈ (logtoLogin env baseUrl email password rand64 rand16).1,
      r.timeout = none := by
  intro r hr
  unfold logtoLogin at hr
  split at hr
  · exact loginPre_timeout baseUrl email password rand64 rand16 r hr
  · split at hr
    · exact loginPre_timeout baseUrl email password rand64 rand16 r hr
    · split at hr
      · rcases List.mem_append.mp hr with hm | hm
        · exact loginPre_timeout baseUrl email password rand64 rand16 r hm
        · simp only [List.mem_singleton] at hm
          subst hm; rfl
      · split at hr
        · split at hr
          · refine finishFlow_timeout env 7 _ _ _ _ _ ?_ r hr
            intro q hq
            rcases List.mem_append.mp hq with hm | hm
            · exact loginPre_timeout baseUrl email password rand64 rand16 q hm
            · simp only [List.mem_cons, List.not_mem_nil, or_false] at hm
              rcases hm with rfl | rfl | rfl | rfl <;> rfl
          · rcases List.mem_append.mp hr with hm | hm
            · exact loginPre_timeout baseUrl email password rand64 rand16 r hm
            · simp only [List.mem_cons, List.not_mem_nil, or_false] at hm
              rcases hm with rfl | rfl | rfl | rfl <;> rfl
        · refine finishFlow_timeout env 5 _ _ _ _ _ ?_ r hr
          intro q hq
          rcases List.mem_append.mp hq with hm | hm
          · exact loginPre_timeout baseUrl email password rand64 rand16 q hm
          · simp only [List.mem_cons, List.not_mem_nil, or_false] at hm
            rcases hm with rfl | rfl <;> rfl

/-- C2 witness: the sign-in PUT of a concrete run has no timeout. -/
theorem C2_no_request_has_timeout_witness :
    reqSignIn ∈ (logtoLogin env422 "https://my.example" "user@example.com" "pw"
        (List.replicate 64 0) (List.replicate 16 0)).1
    ∧ reqSignIn.timeout = none :=
  ⟨by rw [logto_422 env422 "https://my.example" "user@example.com" "pw"
        (List.replicate 64 0) (List.replicate 16 0) rfl]; simp,
   C2_no_request_has_timeout env422 "https://my.example" "user@example.com" "pw"
     (List.replicate 64 0) (List.replicate 16 0) reqSignIn
     (by rw [logto_422 env422 "https://my.example" "user@example.com" "pw"
          (List.replicate 64 0) (List.replicate 16 0) rfl]; simp)⟩

/-- C1: in a successful consent-free run — credentials accepted, a
non-empty `redirectTo`, a `code` in the final redirect, non-empty
`access_token` and `data.token` — the login returns exactly the
`data.token` string, issuing the requests in the fixed order
authorization-start, sign-in PUT, identifiers PATCH, interaction submit,
redirect fetches, token-endpoint POST, backend-exchange POST.  Every
provider interaction request uses the session (cookie context); the two
token exchanges do not; the token POST carries the `code` extracted from
the final redirect and the original `code_verifier`. -/
theorem C1_login_success_trace (env : Nat → HttpResponse)
    (baseUrl email password : String) (rand64 rand16 : List Nat)
    (rt code logtoToken tk : String)
    (h1 : (env 2).status ≠ 422) (h2 : (env 2).status < 400)
    (h3 : (env 3).body.get? "redirectTo" = some (.str rt)) (h3x : rt ≠ "")
    (h4 : containsSub ((env 4).location.getD "") "consent" = false)
    (h5 : qsLookup (parseQs (urlQuery ((env 5).location.getD ""))) "code"
            = some code)
    (h5x : code ≠ "")
    (h6 : (env 6).body.get? "access_token" = some (.str logtoToken))
    (h6x : logtoToken ≠ "")
    (h7 : (((env 7).body.get? "data").getD (.obj [])).get? "token"
            = some (.str tk))
    (h7x : tk ≠ "") :
    logtoLogin env baseUrl email password rand64 rand16
      = ([reqAuth (redirectUriOf baseUrl) (tokenUrlsafe rand16)
            (codeChallengeOf rand64),
          reqSignIn, reqIdent email password, reqSubmit, reqInterim rt,
          reqFinal rt,
          reqToken code (redirectUriOf baseUrl) (tokenUrlsafe rand64),
          reqExchange (backendUrlOf baseUrl) logtoToken],
         .token tk)
    ∧ (logtoLogin env baseUrl email password rand64 rand16).1.map
          (fun r => r.usesSession)
        = [true, true, true, true, true, true, false, false] := by
  have hc : codeOf (env 5) = code := by
    simp [codeOf, callbackOf, h5]
  have hmain : logtoLogin env baseUrl email password rand64 rand16
      = ([reqAuth (redirectUriOf baseUrl) (tokenUrlsafe rand16)
            (codeChallengeOf rand64),
          reqSignIn, reqIdent email password, reqSubmit, reqInterim rt,
          reqFinal rt,
          reqToken code (redirectUriOf baseUrl) (tokenUrlsafe rand64),
          reqExchange (backendUrlOf baseUrl) logtoToken],
         .token tk) := by
    simp [logtoLogin, finishFlow, loginPre, jsonFalsyOr, Json.truthy,
          jsonRender, h1, h3, h3x, h4, hc, h5x, h6, h6x, h7, h7x,
          Nat.not_le.mpr h2]
  refine ⟨hmain, ?_⟩
  rw [hmain]
  rfl

/-- C1 witness: a concrete mocked environment for the whole happy path. -/
theorem C1_login_success_trace_witness :
    ((envOk 2).status ≠ 422 ∧ (envOk 2).status < 400 ∧
     (envOk 3).body.get? "redirectTo" = some (.str "https://logto/next") ∧
     containsSub ((envOk 4).location.getD "") "consent" = false ∧
     qsLookup (parseQs (urlQuery ((envOk 5).location.getD ""))) "code"
       = some "abc" ∧
     (envOk 6).body.get? "access_token" = some (.str "LT") ∧
     (((envOk 7).body.get? "data").getD (.obj [])).get? "token"
       = some (.str "JWT")) ∧
    (logtoLogin envOk "https://my.example" "user@example.com" "pw"
        (List.replicate 64 0) (List.replicate 16 0)
      = ([reqAuth (redirectUriOf "https://my.example")
            (tokenUrlsafe (List.replicate 16 0))
            (codeChallengeOf (List.replicate 64 0)),
          reqSignIn, reqIdent "user@example.com" "pw", reqSubmit,
          reqInterim "https://logto/next", reqFinal "https://logto/next",
          reqToken "abc" (redirectUriOf "https://my.example")
            (tokenUrlsafe (List.replicate 64 0)),
          reqExchange (backendUrlOf "https://my.example") "LT"],
         .token "JWT")
    ∧ (logtoLogin envOk "https://my.example" "user@example.com" "pw"
          (List.replicate 64 0) (List.replicate 16 0)).1.map
            (fun r => r.usesSession)
        = [true, true, true, true, true, true, false, false]) :=
  ⟨⟨by decide, by decide, rfl, by decide, rfl, rfl, rfl⟩,
   C1_login_success_trace envOk "https://my.example" "user@example.com" "pw"
     (List.replicate 64 0) (List.replicate 16 0)
     "https://logto/next" "abc" "LT" "JWT"
     (by decide) (by decide) rfl (by decide) (by decide) rfl (by decide)
     rfl (by decide) rfl (by decide)⟩

/-- C5: if the `Location` header of the final redirect response (request 7
on the consent branch, request 5 otherwise) has no `code` query parameter,
the login fails with the no-authorization-code error and issues neither
the provider token-endpoint request nor the backend token-exchange
request. -/
theorem C5_missing_code_stops_flow (env : Nat → HttpResponse)
    (baseUrl email password : String) (rand64 rand16 : List Nat)
    (rt rt2 : String)
    (h1 : (env 2).status ≠ 422) (h2 : (env 2).status < 400)
    (h3 : (env 3).body.get? "redirectTo" = some (.str rt)) (h3x : rt ≠ "")
    (hcons : containsSub ((env 4).location.getD "") "consent" = true →
       (env 6).body.get? "redirectTo" = some (.str rt2))
    (hnc : qsLookup (parseQs (urlQuery
        ((env (if containsSub ((env 4).location.getD "") "consent" then 7
               else 5)).location.getD ""))) "code" = none) :
    (logtoLogin env baseUrl email password rand64 rand16).2
      = .noAuthorizationCode
          ((env (if containsSub ((env 4).location.getD "") "consent" then 7
                 else 5)).location.getD "")
    ∧ ∀ r ∈ (logtoLogin env baseUrl email password rand64 rand16).1,
        r.tag ≠ .tokenPost ∧ r.tag ≠ .exchangePost := by
  by_cases hc : containsSub ((env 4).location.getD "") "consent" = true
  · have h6 := hcons hc
    simp only [hc, if_true] at hnc
    have hcode : codeOf (env 7) = "" := by
      simp [codeOf, callbackOf, hnc]
    have hmain : logtoLogin env baseUrl email password rand64 rand16
        = (loginPre baseUrl email password rand64 rand16 ++
             [reqSubmit, reqInterim rt,
              reqConsentScreen ((env 4).location.getD ""), reqConsentPost,
              reqFinal rt2],
           .noAuthorizationCode (callbackOf (env 7))) := by
      simp [logtoLogin, finishFlow, jsonFalsyOr, Json.truthy, jsonRender,
            h1, h3, h3x, hc, h6, hcode, Nat.not_le.mpr h2]
    rw [hmain]
    refine ⟨by simp [hc, callbackOf], ?_⟩
    intro r hr
    simp only [loginPre, List.append_eq, List.cons_append, List.nil_append,
      List.mem_cons, List.not_mem_nil, or_false] at hr
    rcases hr with rfl | rfl | rfl | rfl | rfl | rfl | rfl | rfl <;>
      simp [reqAuth, reqSignIn, reqIdent, reqSubmit, reqInterim,
            reqConsentScreen, reqConsentPost, reqFinal]
  · have hcf : containsSub ((env 4).location.getD "") "consent" = false :=
      Bool.not_eq_true _ ▸ eq_false_of_ne_true hc
    simp only [hcf, Bool.false_eq_true, if_false] at hnc
    have hcode : codeOf (env 5) = "" := by
      simp [codeOf, callbackOf, hnc]
    have hmain : logtoLogin env baseUrl email password rand64 rand16
        = (loginPre baseUrl email password rand64 rand16 ++
             [reqSubmit, reqInterim rt, reqFinal rt],
           .noAuthorizationCode (callbackOf (env 5))) := by
      simp [logtoLogin, finishFlow, jsonFalsyOr, Json.truthy, jsonRender,
            h1, h3, h3x, hcf, hcode, Nat.not_le.mpr h2]
    rw [hmain]
    refine ⟨by simp [hcf, callbackOf], ?_⟩
    intro r hr
    simp only [loginPre, List.append_eq, List.cons_append, List.nil_append,
      List.mem_cons, List.not_mem_nil, or_false] at hr
    rcases hr with rfl | rfl | rfl | rfl | rfl | rfl <;>
      simp [reqAuth, reqSignIn, reqIdent, reqSubmit, reqInterim, reqFinal]

/-- C5 witness: a concrete run whose final redirect carries no `code`. -/
theorem C5_missing_code_stops_flow_witness :
    ((envNoCode 2).status ≠ 422 ∧ (envNoCode 2).status < 400 ∧
     (envNoCode 3).body.get? "redirectTo" = some (.str "https://logto/next") ∧
     qsLookup (parseQs (urlQuery
        ((envNoCode (if containsSub ((envNoCode 4).location.getD "") "consent"
                     then 7 else 5)).location.getD ""))) "code" = none) ∧
    ((logtoLogin envNoCode "https://my.example" "user@example.com" "pw"
        (List.replicate 64 0) (List.replicate 16 0)).2
      = .noAuthorizationCode
          ((envNoCode (if containsSub ((envNoCode 4).location.getD "") "consent"
                       then 7 else 5)).location.getD "")
    ∧ ∀ r ∈ (logtoLogin envNoCode "https://my.example" "user@example.com" "pw"
          (List.replicate 64 0) (List.replicate 16 0)).1,
        r.tag ≠ .tokenPost ∧ r.tag ≠ .exchangePost) :=
  ⟨⟨by decide, by decide, rfl, by decide⟩,
   C5_missing_code_stops_flow envNoCode "https://my.example" "user@example.com"
     "pw" (List.replicate 64 0) (List.replicate 16 0)
     "https://logto/next" "unused"
     (by decide) (by decide) rfl (by decide)
     (fun h => absurd h (by decide)) (by decide)⟩

/-- C6: the consent-screen fetch and consent-submission POST appear in the
trace (right after the interim redirect fetch) precisely when the interim
`Location` header contains the substring `"consent"`; in that case the
final redirect target is the consent response's `redirectTo`, otherwise it
is the original `redirectTo` unchanged and no consent request is ever
issued. -/
theorem C6_consent_branch_iff (env : Nat → HttpResponse)
    (baseUrl email password : String) (rand64 rand16 : List Nat)
    (rt rt2 : String)
    (h1 : (env 2).status ≠ 422) (h2 : (env 2).status < 400)
    (h3 : (env 3).body.get? "redirectTo" = some (.str rt)) (h3x : rt ≠ "")
    (hcons : containsSub ((env 4).location.getD "") "consent" = true →
       (env 6).body.get? "redirectTo" = some (.str rt2)) :
    (containsSub ((env 4).location.getD "") "consent" = true →
      ∃ rest, (logtoLogin env baseUrl email password rand64 rand16).1
          = [reqAuth (redirectUriOf baseUrl) (tokenUrlsafe rand16)
               (codeChallengeOf rand64),
             reqSignIn, reqIdent email password, reqSubmit, reqInterim rt,
             reqConsentScreen ((env 4).location.getD ""), reqConsentPost,
             reqFinal rt2] ++ rest
        ∧ ∀ r ∈ rest, r.tag = .tokenPost ∨ r.tag = .exchangePost)
    ∧ (containsSub ((env 4).location.getD "") "consent" = false →
      (∃ rest, (logtoLogin env baseUrl email password rand64 rand16).1
          = [reqAuth (redirectUriOf baseUrl) (tokenUrlsafe rand16)
               (codeChallengeOf rand64),
             reqSignIn, reqIdent email password, reqSubmit, reqInterim rt,
             reqFinal rt] ++ rest
        ∧ ∀ r ∈ rest, r.tag = .tokenPost ∨ r.tag = .exchangePost)
      ∧ ∀ r ∈ (logtoLogin env baseUrl email password rand64 rand16).1,
          r.tag ≠ .consentScreenGet ∧ r.tag ≠ .consentPost) := by
  constructor
  · intro hc
    have h6 := hcons hc
    have hflow : logtoLogin env baseUrl email password rand64 rand16
        = finishFlow env 7
            (loginPre baseUrl email password rand64 rand16 ++
               [reqSubmit, reqInterim rt,
                reqConsentScreen ((env 4).location.getD ""), reqConsentPost])
            rt2 (redirectUriOf baseUrl) (backendUrlOf baseUrl)
            (tokenUrlsafe rand64) := by
      simp [logtoLogin, jsonFalsyOr, Json.truthy, jsonRender,
            h1, h3, h3x, hc, h6, Nat.not_le.mpr h2]
    obtain ⟨rest, hdec, htags⟩ :=
      finishFlow_decomp env 7
        (loginPre baseUrl email password rand64 rand16 ++
           [reqSubmit, reqInterim rt,
            reqConsentScreen ((env 4).location.getD ""), reqConsentPost])
        rt2 (redirectUriOf baseUrl) (backendUrlOf baseUrl)
        (tokenUrlsafe rand64)
    exact ⟨rest, by rw [hflow, hdec]; simp [loginPre], htags⟩
  · intro hcf
    have hflow : logtoLogin env baseUrl email password rand64 rand16
        = finishFlow env 5
            (loginPre baseUrl email password rand64 rand16 ++
               [reqSubmit, reqInterim rt])
            rt (redirectUriOf baseUrl) (backendUrlOf baseUrl)
            (tokenUrlsafe rand64) := by
      simp [logtoLogin, jsonFalsyOr, Json.truthy, jsonRender,
            h1, h3, h3x, hcf, Nat.not_le.mpr h2]
    obtain ⟨rest, hdec, htags⟩ :=
      finishFlow_decomp env 5
        (loginPre baseUrl email password rand64 rand16 ++
           [reqSubmit, reqInterim rt])
        rt (redirectUriOf baseUrl) (backendUrlOf baseUrl)
        (tokenUrlsafe rand64)
    refine ⟨⟨rest, by rw [hflow, hdec]; simp [loginPre], htags⟩, ?_⟩
    intro r hr
    rw [hflow, hdec] at hr
    rcases List.mem_append.mp hr with hm | hm
    · rcases List.mem_append.mp hm with hm1 | hm1
      · simp only [loginPre, List.mem_cons, List.not_mem_nil, or_false] at hm1
        rcases hm1 with rfl | rfl | rfl <;> simp [reqAuth, reqSignIn, reqIdent]
      · simp only [List.mem_cons, List.not_mem_nil, or_false] at hm1
        rcases hm1 with rfl | rfl <;> simp [reqSubmit, reqInterim]
    · simp only [List.mem_cons] at hm
      rcases hm with rfl | hm
      · simp [reqFinal]
      · rcases htags r hm with ht | ht <;> simp [ht]

/-- C6 witness: a concrete consent-branch run exercises the theorem. -/
theorem C6_consent_branch_iff_witness :
    ((envConsent 2).status ≠ 422 ∧ (envConsent 2).status < 400 ∧
     (envConsent 3).body.get? "redirectTo" = some (.str "https://logto/next") ∧
     containsSub ((envConsent 4).location.getD "") "consent" = true ∧
     (envConsent 6).body.get? "redirectTo" = some (.str "https://logto/after")) ∧
    ((containsSub ((envConsent 4).location.getD "") "consent" = true →
      ∃ rest, (logtoLogin envConsent "https://my.example" "user@example.com" "pw"
            (List.replicate 64 0) (List.replicate 16 0)).1
          = [reqAuth (redirectUriOf "https://my.example")
               (tokenUrlsafe (List.replicate 16 0))
               (codeChallengeOf (List.replicate 64 0)),
             reqSignIn, reqIdent "user@example.com" "pw", reqSubmit,
             reqInterim "https://logto/next",
             reqConsentScreen ((envConsent 4).location.getD ""), reqConsentPost,
             reqFinal "https://logto/after"] ++ rest
        ∧ ∀ r ∈ rest, r.tag = .tokenPost ∨ r.tag = .exchangePost)
    ∧ (containsSub ((envConsent 4).location.getD "") "consent" = false →
      (∃ rest, (logtoLogin envConsent "https://my.example" "user@example.com" "pw"
            (List.replicate 64 0) (List.replicate 16 0)).1
          = [reqAuth (redirectUriOf "https://my.example")
               (tokenUrlsafe (List.replicate 16 0))
               (codeChallengeOf (List.replicate 64 0)),
             reqSignIn, reqIdent "user@example.com" "pw", reqSubmit,
             reqInterim "https://logto/next",
             reqFinal "https://logto/next"] ++ rest
        ∧ ∀ r ∈ rest, r.tag = .tokenPost ∨ r.tag = .exchangePost)
      ∧ ∀ r ∈ (logtoLogin envConsent "https://my.example" "user@example.com" "pw"
            (List.replicate 64 0) (List.replicate 16 0)).1,
          r.tag ≠ .consentScreenGet ∧ r.tag ≠ .consentPost)) :=
  ⟨⟨by decide, by decide, rfl, by decide, rfl⟩,
   C6_consent_branch_iff envConsent "https://my.example" "user@example.com" "pw"
     (List.replicate 64 0) (List.replicate 16 0)
     "https://logto/next" "https://logto/after"
     (by decide) (by decide) rfl (by decide) (fun _ => rfl)⟩

/-- C4: for any 64 random bytes, the generated `code_challenge` equals the
base64url encoding, padding stripped, of the SHA-256 digest of the
generated `code_verifier`; the verifier is at least 43 characters long
(it is exactly 86) and uses only URL-safe characters. -/
theorem C4_pkce_properties (rand64 : List Nat)
    (h1 : rand64.length = 64) (h2 : ∀ b ∈ rand64, b < 256) :
    codeChallengeOf rand64
      = b64urlNoPad (sha256 (asciiBytes (tokenUrlsafe rand64)))
    ∧ 43 ≤ (tokenUrlsafe rand64).length
    ∧ ∀ c ∈ (tokenUrlsafe rand64).data, isUrlSafeChar c := by
  refine ⟨rfl, ?_, ?_⟩
  · have h86 : (tokenUrlsafe rand64).length = 86 := by
      show (b64urlNoPadAux rand64).length = 86
      rw [b64urlNoPadAux_length, h1]
    omega
  · intro c hc
    exact b64urlNoPadAux_charset rand64 h2 c hc

/-- C4 witness: the theorem applied to a concrete 64-byte draw. -/
theorem C4_pkce_properties_witness :
    ((List.replicate 64 0).length = 64 ∧
     ∀ b ∈ List.replicate 64 0, b < 256) ∧
    (codeChallengeOf (List.replicate 64 0)
       = b64urlNoPad (sha256 (asciiBytes (tokenUrlsafe (List.replicate 64 0))))
     ∧ 43 ≤ (tokenUrlsafe (List.replicate 64 0)).length
     ∧ ∀ c ∈ (tokenUrlsafe (List.replicate 64 0)).data, isUrlSafeChar c) :=
  ⟨⟨by decide, by decide⟩,
   C4_pkce_properties (List.replicate 64 0) (by decide) (by decide)⟩

/-- C8: the push payload is a single alert object whose `endsAt` is the
literal string `"0001-01-01T00:00:00Z"`. -/
theorem C8_push_endsAt_literal (alertname severity key : String)
    (labelArgs annotationArgs : List String) (now : Nat)
    (payload : List AlertObj)
    (h : pushAlert alertname severity key labelArgs annotationArgs now
           = some payload) :
    payload.length = 1 ∧ ∀ alert ∈ payload,
      alert.endsAt = "0001-01-01T00:00:00Z" := by
  unfold pushAlert at h
  split at h
  · injection h with h
    subst h
    refine ⟨rfl, ?_⟩
    intro alert ha
    simp only [List.mem_singleton] at ha
    subst ha
    rfl
  · exact Option.noConfusion h

/-- C8 witness: a concrete push invocation. -/
theorem C8_push_endsAt_literal_witness :
    pushAlert "HighCPU" "critical" "NOC-1" [] [] 0
      = some [{ labels := [("alertname", "HighCPU"), ("severity", "critical"),
                           ("system_key", "NOC-1")],
                annotations := [],
                generatorURL := "http://NOC-1/alert",
                startsAt := "1970-01-01T00:00:00Z",
                endsAt := "0001-01-01T00:00:00Z" }]
    ∧ ([{ labels := [("alertname", "HighCPU"), ("severity", "critical"),
                     ("system_key", "NOC-1")],
          annotations := ([] : List (String × String)),
          generatorURL := "http://NOC-1/alert",
          startsAt := "1970-01-01T00:00:00Z",
          endsAt := "0001-01-01T00:00:00Z" }] : List AlertObj).length = 1
    ∧ ∀ alert ∈ ([{ labels := [("alertname", "HighCPU"),
                               ("severity", "critical"),
                               ("system_key", "NOC-1")],
                    annotations := ([] : List (String × String)),
                    generatorURL := "http://NOC-1/alert",
                    startsAt := "1970-01-01T00:00:00Z",
                    endsAt := "0001-01-01T00:00:00Z" }] : List AlertObj),
        alert.endsAt = "0001-01-01T00:00:00Z" :=
  ⟨rfl, (C8_push_endsAt_literal "HighCPU" "critical" "NOC-1" [] [] 0 _ rfl).1,
        (C8_push_endsAt_literal "HighCPU" "critical" "NOC-1" [] [] 0 _ rfl).2⟩

/-- C9: the resolve payload is a single alert object whose `endsAt` is the
current UTC time and whose `startsAt` is the current UTC time minus one
hour, both rendered by the `%Y-%m-%dT%H:%M:%SZ` formatter `fmtTime`. -/
theorem C9_resolve_times (alertname severity key : String)
    (labelArgs : List String) (now : Nat) (payload : List AlertObj)
    (h0 : 3600 ≤ now)
    (h : resolveAlert alertname severity key labelArgs now = some payload) :
    payload.length = 1 ∧ ∀ alert ∈ payload,
      alert.endsAt = fmtTime now ∧ alert.startsAt = fmtTime (now - 3600) := by
  unfold resolveAlert at h
  split at h
  · injection h with h
    subst h
    refine ⟨rfl, ?_⟩
    intro alert ha
    simp only [List.mem_singleton] at ha
    subst ha
    exact ⟨rfl, rfl⟩
  · exact Option.noConfusion h

/-- C9 witness: a concrete resolve invocation two hours past the epoch. -/
theorem C9_resolve_times_witness :
    (3600 ≤ 7200 ∧
     resolveAlert "HighCPU" "critical" "NOC-1" [] 7200
       = some [{ labels := [("alertname", "HighCPU"), ("severity", "critical"),
                            ("system_key", "NOC-1")],
                 annotations := [("summary", "resolved")],
                 generatorURL := "http://NOC-1/alert",
                 startsAt := "1970-01-01T01:00:00Z",
                 endsAt := "1970-01-01T02:00:00Z" }])
    ∧ ([{ labels := [("alertname", "HighCPU"), ("severity", "critical"),
                     ("system_key", "NOC-1")],
          annotations := [("summary", "resolved")],
          generatorURL := "http://NOC-1/alert",
          startsAt := "1970-01-01T01:00:00Z",
          endsAt := "1970-01-01T02:00:00Z" }] : List AlertObj).length = 1
    ∧ ∀ alert ∈ ([{ labels := [("alertname", "HighCPU"),
                               ("severity", "critical"),
                               ("system_key", "NOC-1")],
                    annotations := [("summary", "resolved")],
                    generatorURL := "http://NOC-1/alert",
                    startsAt := "1970-01-01T01:00:00Z",
                    endsAt := "1970-01-01T02:00:00Z" }] : List AlertObj),
        alert.endsAt = fmtTime 7200 ∧ alert.startsAt = fmtTime (7200 - 3600) :=
  ⟨⟨by decide, rfl⟩,
   (C9_resolve_times "HighCPU" "critical" "NOC-1" [] 7200 _ (by decide) rfl).1,
   (C9_resolve_times "HighCPU" "critical" "NOC-1" [] 7200 _ (by decide) rfl).2⟩

/-- C10: the posted labels start from the flag-derived
`alertname`/`severity`/`system_key` base and then apply every `--labels`
pair on top (for both push and resolve), so a `--labels` pair for one of
the three base keys replaces the flag value, and the base values survive
only for keys no `--labels` pair mentions. -/
theorem C10_labels_override (alertname severity key : String)
    (labelArgs annotationArgs : List String) (now : Nat)
    (parsed : List (String × String))
    (hp : parseKv labelArgs = some parsed) :
    (∀ payload, pushAlert alertname severity key labelArgs annotationArgs now
         = some payload →
       ∀ alert ∈ payload, alert.labels = mkLabels alertname severity key parsed)
    ∧ (∀ payload, resolveAlert alertname severity key labelArgs now
         = some payload →
       ∀ alert ∈ payload, alert.labels = mkLabels alertname severity key parsed)
    ∧ (∀ k v, lastVal parsed k = some v →
        dictLookup (mkLabels alertname severity key parsed) k = some v)
    ∧ (lastVal parsed "alertname" = none →
        dictLookup (mkLabels alertname severity key parsed) "alertname"
          = some alertname)
    ∧ (lastVal parsed "severity" = none →
        dictLookup (mkLabels alertname severity key parsed) "severity"
          = some severity)
    ∧ (lastVal parsed "system_key" = none →
        dictLookup (mkLabels alertname severity key parsed) "system_key"
          = some key) := by
  refine ⟨?_, ?_, ?_, ?_, ?_, ?_⟩
  · intro payload h alert ha
    unfold pushAlert at h
    rw [hp] at h
    split at h
    · rename_i x1 x2 pl pa heq1 heq2
      injection heq1 with heq1
      subst heq1
      injection h with h
      subst h
      simp only [List.mem_singleton] at ha
      subst ha
      rfl
    · exact Option.noConfusion h
  · intro payload h alert ha
    unfold resolveAlert at h
    rw [hp] at h
    injection h with h
    subst h
    simp only [List.mem_singleton] at ha
    subst ha
    rfl
  · intro k v hvl
    rw [dictLookup_mkLabels, hvl]
    rfl
  · intro hnone
    rw [dictLookup_mkLabels, hnone]
    rfl
  · intro hnone
    rw [dictLookup_mkLabels, hnone]
    rfl
  · intro hnone
    rw [dictLookup_mkLabels, hnone]
    rfl

/-- C10 witness: a `--labels severity=low` pair overrides the flag value. -/
theorem C10_labels_override_witness :
    parseKv ["severity=low"] = some [("severity", "low")] ∧
    ((∀ payload, pushAlert "HighCPU" "critical" "NOC-1" ["severity=low"] [] 0
         = some payload →
       ∀ alert ∈ payload, alert.labels
         = mkLabels "HighCPU" "critical" "NOC-1" [("severity", "low")])
    ∧ (∀ payload, resolveAlert "HighCPU" "critical" "NOC-1" ["severity=low"] 0
         = some payload →
       ∀ alert ∈ payload, alert.labels
         = mkLabels "HighCPU" "critical" "NOC-1" [("severity", "low")])
    ∧ (∀ k v, lastVal [("severity", "low")] k = some v →
        dictLookup (mkLabels "HighCPU" "critical" "NOC-1" [("severity", "low")]) k
          = some v)
    ∧ (lastVal [("severity", "low")] "alertname" = none →
        dictLookup (mkLabels "HighCPU" "critical" "NOC-1" [("severity", "low")])
          "alertname" = some "HighCPU")
    ∧ (lastVal [("severity", "low")] "severity" = none →
        dictLookup (mkLabels "HighCPU" "critical" "NOC-1" [("severity", "low")])
          "severity" = some "critical")
    ∧ (lastVal [("severity", "low")] "system_key" = none →
        dictLookup (mkLabels "HighCPU" "critical" "NOC-1" [("severity", "low")])
          "system_key" = some "NOC-1")) :=
  ⟨rfl, C10_labels_override "HighCPU" "critical" "NOC-1" ["severity=low"] [] 0
     [("severity", "low")] rfl⟩

end My
